import Mathlib

/-!
# Verification of the library return-date notifier (`src/main.js`)

Shallow embedding of a Google Apps Script program that reads a settings
sheet and a loan-records sheet, filters loan rows whose due date (column 7)
equals tomorrow's date formatted as `yyyy/mm/dd`, and sends one LINE
notification listing the due titles; every runtime error is logged to an
error-log sheet.

The embedding is split into:
* a calendar model of the JS `Date` object as used by the code
  (`getFullYear` / `getMonth` / `getDate` / `setDate` normalization);
* a `Cell` type for spreadsheet values (date, string, number, or the JS
  `undefined` that results from indexing past the end of a row);
* the pure functions `formatDate`, `addDays`, and the row filter of
  `getBooksDueOnDate`;
* an effect-trace model of the side-effecting functions: each one returns
  the list of observable events it performed (error-log appends and HTTP
  posts) together with either a result or an escaped JS exception,
  mirroring the `try`/`catch` structure of the source line by line.
-/

/-- A JS `Date` value, identified by its civil calendar fields.
`month` is the 1-based civil month (the JS API's `getMonth()` is 0-based,
see `getMonth` below); `day` is the day of month (`getDate()`). -/
structure JSDate where
  year : Int
  month : Int
  day : Int
deriving DecidableEq

/-- JS `date.getFullYear()`. -/
def JSDate.getFullYear (d : JSDate) : Int := d.year

/-- JS `date.getMonth()`: 0-based month. -/
def JSDate.getMonth (d : JSDate) : Int := d.month - 1

/-- JS `date.getDate()`: day of month. -/
def JSDate.getDate (d : JSDate) : Int := d.day

/-- Proleptic Gregorian leap-year rule, as used by the JS `Date` object. -/
def isLeap (y : Int) : Bool := (y % 4 == 0 && y % 100 != 0) || y % 400 == 0

/-- Number of days in month `m` (1-based) of year `y`.  Months outside
`1..12` take the catch-all 31-day branch; all uses are guarded by
`ValidDate`. -/
def daysInMonth (y m : Int) : Int :=
  if m = 2 then (if isLeap y then 29 else 28)
  else if m = 4 ∨ m = 6 ∨ m = 9 ∨ m = 11 then 30
  else 31

/-- The day-of-month normalization performed by JS `date.setDate(v)`:
an out-of-range day value rolls the month (and year) forward or backward
until the day is in range.  This is the civil-field view of the linear
time-value arithmetic the JS engine performs. -/
def setDateNorm (y m d : Int) : JSDate :=
  if daysInMonth y m < d then
    if m = 12 then setDateNorm (y + 1) 1 (d - daysInMonth y m)
    else setDateNorm y (m + 1) (d - daysInMonth y m)
  else if d ≤ 0 then
    if m = 1 then setDateNorm (y - 1) 12 (d + daysInMonth (y - 1) 12)
    else setDateNorm y (m - 1) (d + daysInMonth y (m - 1))
  else ⟨y, m, d⟩
termination_by (if d ≤ 0 then (1 - d).toNat + 62 else d.toNat)
decreasing_by
  · have h1 : 28 ≤ daysInMonth y m ∧ daysInMonth y m ≤ 31 := by
      unfold daysInMonth; split_ifs <;> omega
    split_ifs <;> omega
  · have h1 : 28 ≤ daysInMonth y m ∧ daysInMonth y m ≤ 31 := by
      unfold daysInMonth; split_ifs <;> omega
    split_ifs <;> omega
  · have h1 : 28 ≤ daysInMonth (y - 1) 12 ∧ daysInMonth (y - 1) 12 ≤ 31 := by
      unfold daysInMonth; split_ifs <;> omega
    split_ifs <;> omega
  · have h1 : 28 ≤ daysInMonth y (m - 1) ∧ daysInMonth y (m - 1) ≤ 31 := by
      unfold daysInMonth; split_ifs <;> omega
    split_ifs <;> omega

/-- Function `addDays(date, days)` from `src/main.js` lines 105-109: copy the date
and `setDate(getDate() + days)`.  The input is copied (`new Date(date)`)
before mutation, so in this pure model the function simply returns the
normalized new date and the argument is untouched by construction. -/
def addDays (date : JSDate) (days : Int) : JSDate :=
  setDateNorm date.year date.month (date.day + days)

/-- Holds when `value` is a date with in-range civil fields (what the spec calls a
"genuine calendar date"). -/
def ValidDate (d : JSDate) : Prop :=
  1 ≤ d.month ∧ d.month ≤ 12 ∧ 1 ≤ d.day ∧ d.day ≤ daysInMonth d.year d.month

instance (d : JSDate) : Decidable (ValidDate d) := by
  unfold ValidDate; infer_instance

/-- Specification-side definition: the calendar date one day after `d`,
by standard calendar arithmetic (month/year rollover). -/
def nextDay (d : JSDate) : JSDate :=
  if d.day < daysInMonth d.year d.month then ⟨d.year, d.month, d.day + 1⟩
  else if d.month = 12 then ⟨d.year + 1, 1, 1⟩
  else ⟨d.year, d.month + 1, 1⟩

/-- JS `String(n).padStart(2, '0')` for the already-rendered string. -/
def padStart2 (s : String) : String :=
  if 2 ≤ s.length then s else String.mk (List.replicate (2 - s.length) '0') ++ s

/-- The `yyyy/mm/dd` rendering of a date produced by `formatDate`
(lines 93-96): `${year}/${month padded}/${day padded}` with
`month = getMonth() + 1`. -/
def fmtYMD (d : JSDate) : String :=
  toString d.getFullYear ++ "/" ++ padStart2 (toString (d.getMonth + 1)) ++ "/"
    ++ padStart2 (toString d.getDate)

/-- A spreadsheet cell value as seen from JS: a `Date` object, a string
(empty cells read back as `""`), a number, or `undefined` (indexing a row
past its end).  Sheets numbers are IEEE doubles; the claims only involve
whether a number cell can ever equal a string, so integers suffice. -/
inductive Cell where
  | date (d : JSDate)
  | str (s : String)
  | num (n : Int)
  | undefined
deriving DecidableEq

/-- Whether a cell holds a `Date` object (`value instanceof Date`). -/
def Cell.isDate : Cell → Bool
  | .date _ => true
  | _ => false

/-- JS string coercion `String(v)` as used by template literals and
`Array.prototype.join` for non-null elements.  The exact platform
rendering of a `Date` object under string coercion is locale-dependent;
no theorem below depends on that case, and the model renders it through
`fmtYMD` only to stay total and executable. -/
def Cell.jsString : Cell → String
  | .str s => s
  | .num n => toString n
  | .undefined => "undefined"
  | .date d => fmtYMD d

/-- JS truthiness of a cell value (`!value` is `true` exactly on falsy
values: `undefined`, `""`, `0`). -/
def Cell.truthy : Cell → Bool
  | .str s => !(s == "")
  | .num n => !(n == 0)
  | .undefined => false
  | .date _ => true

/-- Function `formatDate` from `src/main.js` lines 90-97: a non-`Date` input is
returned unchanged; a `Date` is rendered as `yyyy/mm/dd`. -/
def formatDate : Cell → Cell
  | .date d => .str (fmtYMD d)
  | v => v

/-- JS strict equality `x === t` between an arbitrary value and a string
`t`: only a string with the same characters compares equal. -/
def cellEqStr (c : Cell) (t : String) : Bool :=
  match c with
  | .str s => s == t
  | _ => false

/-- A loan-record row as read by `getDataRange().getValues()`. -/
abbrev Row := List Cell

/-- JS array indexing `row[i]`: out-of-range gives `undefined`. -/
def cellAt (row : Row) (i : Nat) : Cell := row.getD i .undefined

/-- The filter predicate of `getBooksDueOnDate` (lines 70-75): format the
due-date cell (column 7, `row[6]`) and compare `===` to the target. -/
def rowMatches (targetDate : String) (row : Row) : Bool :=
  cellEqStr (formatDate (cellAt row 6)) targetDate

/-- The pure computation of `getBooksDueOnDate` on the fetched table
(lines 69-76): `data.slice(1).filter(...).map(row => row[3])`. -/
def dueBooksOf (data : List Row) (targetDate : String) : List Cell :=
  ((data.drop 1).filter (rowMatches targetDate)).map (fun row => cellAt row 3)

/-- Specification-side definition, following §4.2 of the spec: walk the
rows after the header in original order and collect the title (column 4)
of every row whose formatted due-date cell equals the target, keeping
duplicates. -/
def specMatchingTitles (targetDate : String) : List Row → List Cell
  | [] => []
  | row :: rest =>
    if cellEqStr (formatDate (cellAt row 6)) targetDate
    then cellAt row 3 :: specMatchingTitles targetDate rest
    else specMatchingTitles targetDate rest

/-- The fixed first line of the notification message (line 22). -/
def headerLine : String := "以下の本の返却期限が明日です:"

/-- The fixed informational URL on the last line of the message (line 22). -/
def urlLine : String := "https://libweb.city.setagaya.tokyo.jp/rentallist"

/-- Element coercion of JS `Array.prototype.join`: `undefined` (and
`null`) become the empty string, other values their string coercion. -/
def joinElem : Cell → String
  | .undefined => ""
  | c => c.jsString

/-- The template literal of line 22:
`以下の本の返却期限が明日です:\n${returnBooks.join('\n')}\n\nhttps://...`. -/
def buildMessage (returnBooks : List Cell) : String :=
  headerLine ++ "\n" ++ String.intercalate "\n" (returnBooks.map joinElem)
    ++ "\n\n" ++ urlLine

/-- The JS object built by `getConfig`, as the ordered key/value pairs
assigned into it (later assignments to the same key win, see `configGet`).
Object keys are the string coercions of the column-A cells. -/
abbrev Config := List (String × Cell)

/-- Assignment `config[key] = value` for each settings row (lines 44-46). -/
def buildConfig (rows : List (Cell × Cell)) : Config :=
  rows.map (fun p => (p.1.jsString, p.2))

/-- JS property read `config[k]`: the last assignment wins, a missing key
reads as `undefined`. -/
def configGet (c : Config) (k : String) : Cell :=
  match c.reverse.find? (fun p => p.1 == k) with
  | some p => p.2
  | none => .undefined

/-- The truthiness check of line 12:
`!config || !config.URL || !config.ACCESS_TOKEN || !config.TO_USER_ID`
(negated: `true` iff the config may be used). -/
def cfgValid : Option Config → Bool
  | none => false
  | some c =>
    (configGet c "URL").truthy && (configGet c "ACCESS_TOKEN").truthy
      && (configGet c "TO_USER_ID").truthy

/-- An observable side effect: one appended error-log row, or one outbound
HTTP POST.  A `post` records the data interpolated into the request:
`config.URL`, `config.ACCESS_TOKEN` (placed after `Bearer `),
`config.TO_USER_ID`, and the message text; the fixed header names and JSON
framing of lines 123-138 carry no further information. -/
inductive Event where
  | logged (msg : String)
  | post (url accessToken toUserId : Cell) (text : String)
deriving DecidableEq

/-- Whether an event is an outbound HTTP POST. -/
def Event.isPost : Event → Bool
  | .post _ _ _ _ => true
  | _ => false

/-- Number of HTTP POSTs in a trace. -/
def countPosts (evs : List Event) : Nat := (evs.filter Event.isPost).length

/-- One run's external environment: what each spreadsheet-store and
network primitive does when called.  A `some e` in a `...Throw` field
means that primitive throws a JS error whose `message` is `e`. -/
structure Env where
  today : JSDate
  settingsSheet : Option (List (Cell × Cell))
  settingsReadThrow : Option String
  dataSheet : Option (List Row)
  dataReadThrow : Option String
  fetchThrow : Option String
  logThrow : Option String

/-- Outcome of running a piece of code: the events it performed, and
either its return value or the message of an exception that escaped it. -/
abbrev EResult (α : Type) := List Event × Except String α

/-- Function `logError` (lines 148-153): appends one log row.  It has no
`try`/`catch` of its own, so a throwing sheet operation escapes to the
caller (with no row appended). -/
def logError (env : Env) (errorMessage : String) : EResult Unit :=
  match env.logThrow with
  | some e => ([], .error e)
  | none => ([Event.logged errorMessage], .ok ())

/-- The `try` block of `getConfig` (lines 36-48). -/
def getConfigBody (env : Env) : EResult (Option Config) :=
  match env.settingsSheet with
  | none =>
    match logError env "設定シートが見つかりません。" with
    | (ev, .ok _) => (ev, .ok none)
    | (ev, .error e) => (ev, .error e)
  | some rows =>
    match env.settingsReadThrow with
    | some e => ([], .error e)
    | none => ([], .ok (some (buildConfig rows)))

/-- Function `getConfig` (lines 34-53): the `try` body, with the `catch` logging
`getConfig関数でエラー: ...` and returning `null`; a throw inside the
`catch` itself escapes. -/
def getConfig (env : Env) : EResult (Option Config) :=
  match getConfigBody env with
  | (ev, .ok r) => (ev, .ok r)
  | (ev, .error e) =>
    match logError env ("getConfig関数でエラー: " ++ e) with
    | (ev2, .ok _) => (ev ++ ev2, .ok none)
    | (ev2, .error e2) => (ev ++ ev2, .error e2)

/-- The `try` block of `getBooksDueOnDate` (lines 62-78). -/
def getBooksBody (env : Env) (targetDate : String) : EResult (List Cell) :=
  match env.dataSheet with
  | none =>
    match logError env "返却期限シートが見つかりません。" with
    | (ev, .ok _) => (ev, .ok [])
    | (ev, .error e) => (ev, .error e)
  | some data =>
    match env.dataReadThrow with
    | some e => ([], .error e)
    | none => ([], .ok (dueBooksOf data targetDate))

/-- Function `getBooksDueOnDate` (lines 60-83): the `try` body, with the `catch`
logging `getBooksDueOnDate関数でエラー: ...` and returning `[]`. -/
def getBooksDueOnDate (env : Env) (targetDate : String) : EResult (List Cell) :=
  match getBooksBody env targetDate with
  | (ev, .ok r) => (ev, .ok r)
  | (ev, .error e) =>
    match logError env ("getBooksDueOnDate関数でエラー: " ++ e) with
    | (ev2, .ok _) => (ev ++ ev2, .ok [])
    | (ev2, .error e2) => (ev ++ ev2, .error e2)

/-- The `try` block of `sendMessageToLINE` (lines 118-138): skip with a
logged error when `config` or `message` is falsy, otherwise perform the
POST with the three config values read off the object as-is. -/
def sendBody (env : Env) (config : Option Config) (message : String) : EResult Unit :=
  match config with
  | none => logError env "sendMessageToLINE関数に必要な引数が渡されていません。"
  | some c =>
    if message = "" then
      logError env "sendMessageToLINE関数に必要な引数が渡されていません。"
    else
      match env.fetchThrow with
      | some e => ([], .error e)
      | none =>
        ([Event.post (configGet c "URL") (configGet c "ACCESS_TOKEN")
            (configGet c "TO_USER_ID") message], .ok ())

/-- Function `sendMessageToLINE` (lines 116-142): the `try` body, with the `catch`
logging `sendMessageToLINE関数でエラー: ...`. -/
def sendMessageToLINE (env : Env) (config : Option Config) (message : String) :
    EResult Unit :=
  match sendBody env config message with
  | (ev, .ok _) => (ev, .ok ())
  | (ev, .error e) =>
    match logError env ("sendMessageToLINE関数でエラー: " ++ e) with
    | (ev2, r) => (ev ++ ev2, r)

/-- The configuration-error message of line 13. -/
def cfgErrMsg : String :=
  "設定情報が正しく取得できませんでした。設定シートの内容を確認してください。"

/-- The `try` block of `checkReturnDatesAndNotify` (lines 9-24). -/
def checkBody (env : Env) : EResult Unit :=
  match getConfig env with
  | (ev1, .error e) => (ev1, .error e)
  | (ev1, .ok config) =>
    if cfgValid config then
      match getBooksDueOnDate env (fmtYMD (addDays env.today 1)) with
      | (ev2, .error e) => (ev1 ++ ev2, .error e)
      | (ev2, .ok returnBooks) =>
        if 0 < returnBooks.length then
          match sendMessageToLINE env config (buildMessage returnBooks) with
          | (ev3, r) => (ev1 ++ ev2 ++ ev3, r)
        else (ev1 ++ ev2, .ok ())
    else
      match logError env cfgErrMsg with
      | (ev2, r) => (ev1 ++ ev2, r)

/-- Function `checkReturnDatesAndNotify` (lines 8-28): the `try` body, with the
`catch` logging `checkReturnDatesAndNotify関数でエラー: ...`; an error
thrown by that final log append escapes to the external trigger. -/
def checkReturnDatesAndNotify (env : Env) : EResult Unit :=
  match checkBody env with
  | (ev, .ok _) => (ev, .ok ())
  | (ev, .error e) =>
    match logError env ("checkReturnDatesAndNotify関数でエラー: " ++ e) with
    | (ev2, r) => (ev ++ ev2, r)

/-- Specification-side rendering of a 1-to-31 component as a two-digit
zero-padded numeral. -/
def twoDigit (n : Int) : String := if n < 10 then "0" ++ toString n else toString n

/-- A concrete loan-records table: a header row, a row due 2025/01/02
("Book A"), a duplicate-title row due the same day, and a row due later. -/
def w1rows : List Row :=
  [[Cell.str "Title"],
   [Cell.undefined, Cell.undefined, Cell.undefined, Cell.str "Book A", Cell.undefined, Cell.undefined,
    Cell.date ⟨2025, 1, 2⟩],
   [Cell.undefined, Cell.undefined, Cell.undefined, Cell.str "Book A", Cell.undefined, Cell.undefined,
    Cell.date ⟨2025, 1, 2⟩],
   [Cell.undefined, Cell.undefined, Cell.undefined, Cell.str "Book B", Cell.undefined, Cell.undefined,
    Cell.date ⟨2025, 3, 4⟩]]

/-- Environment whose loan-records sheet holds `w1rows` and whose other
primitives behave normally. -/
def w1env : Env :=
  { today := ⟨2025, 1, 1⟩, settingsSheet := none, settingsReadThrow := none,
    dataSheet := some w1rows, dataReadThrow := none, fetchThrow := none,
    logThrow := none }

/-- A table whose only data row has a NON-date due cell: the plain string
`"2025/01/02"`. -/
def c2rows : List Row :=
  [[Cell.str "Title"],
   [Cell.undefined, Cell.undefined, Cell.undefined, Cell.str "Book A", Cell.undefined, Cell.undefined,
    Cell.str "2025/01/02"]]

/-- Environment whose loan-records sheet holds `c2rows`. -/
def c2env : Env :=
  { today := ⟨2025, 1, 1⟩, settingsSheet := none, settingsReadThrow := none,
    dataSheet := some c2rows, dataReadThrow := none, fetchThrow := none,
    logThrow := none }

/-- A settings sheet that supplies `URL` but no `ACCESS_TOKEN` and no
`TO_USER_ID`. -/
def c3env : Env :=
  { today := ⟨2025, 1, 1⟩,
    settingsSheet := some [(Cell.str "URL", Cell.str "https://api.example")],
    settingsReadThrow := none, dataSheet := none, dataReadThrow := none,
    fetchThrow := none, logThrow := none }

/-- An environment in which the error logger's sheet append throws (the
settings sheet is also missing, so the logger is reached). -/
def c5env : Env :=
  { today := ⟨2025, 1, 1⟩, settingsSheet := none, settingsReadThrow := none,
    dataSheet := none, dataReadThrow := none, fetchThrow := none,
    logThrow := some "boom" }

/-- An environment with no sheets at all but a working error logger. -/
def w5env : Env :=
  { today := ⟨2025, 1, 1⟩, settingsSheet := none, settingsReadThrow := none,
    dataSheet := none, dataReadThrow := none, fetchThrow := none,
    logThrow := none }

/-- An environment whose loan-records table has a header row only, so the
due list is always empty. -/
def w4env : Env :=
  { today := ⟨2025, 1, 1⟩, settingsSheet := none, settingsReadThrow := none,
    dataSheet := some [[Cell.str "Title"]], dataReadThrow := none,
    fetchThrow := none, logThrow := none }

/-! ## Lemmas about the calendar model -/

theorem daysInMonth_ge (y m : Int) : 28 ≤ daysInMonth y m := by
  unfold daysInMonth
  split_ifs <;> omega

theorem daysInMonth_le (y m : Int) : daysInMonth y m ≤ 31 := by
  unfold daysInMonth
  split_ifs <;> omega

theorem setDateNorm_base (y m d : Int) (h1 : 1 ≤ d) (h2 : d ≤ daysInMonth y m) :
    setDateNorm y m d = ⟨y, m, d⟩ := by
  rw [setDateNorm]
  rw [if_neg (by omega), if_neg (by omega)]

theorem setDateNorm_step (y m d : Int) (h : daysInMonth y m < d) :
    setDateNorm y m d =
      if m = 12 then setDateNorm (y + 1) 1 (d - daysInMonth y m)
      else setDateNorm y (m + 1) (d - daysInMonth y m) := by
  rw [setDateNorm, if_pos h]

/-- Stepping the day argument of the normalization by one is the
specification-side `nextDay`, for any in-range month and positive day. -/
theorem setDateNorm_add_one_aux : ∀ (k : Nat) (y m d : Int), d.toNat ≤ k →
    1 ≤ m → m ≤ 12 → 1 ≤ d →
    setDateNorm y m (d + 1) = nextDay (setDateNorm y m d) := by
  intro k
  induction k with
  | zero => intro y m d hk _ _ hd; omega
  | succ k ih =>
    intro y m d hk hm1 hm2 hd
    by_cases hstep : daysInMonth y m < d
    · have hge := daysInMonth_ge y m
      rw [setDateNorm_step y m d hstep, setDateNorm_step y m (d + 1) (by omega)]
      by_cases h12 : m = 12
      · rw [if_pos h12, if_pos h12]
        have he : d + 1 - daysInMonth y m = (d - daysInMonth y m) + 1 := by omega
        rw [he, ih (y + 1) 1 (d - daysInMonth y m) (by omega) (by omega) (by omega)
          (by omega)]
      · rw [if_neg h12, if_neg h12]
        have he : d + 1 - daysInMonth y m = (d - daysInMonth y m) + 1 := by omega
        rw [he, ih y (m + 1) (d - daysInMonth y m) (by omega) (by omega) (by omega)
          (by omega)]
    · have hle : d ≤ daysInMonth y m := by omega
      rw [setDateNorm_base y m d hd hle]
      by_cases hlt : d < daysInMonth y m
      · rw [setDateNorm_base y m (d + 1) (by omega) (by omega)]
        unfold nextDay
        rw [if_pos (show (⟨y, m, d⟩ : JSDate).day < daysInMonth y m from hlt)]
      · rw [setDateNorm_step y m (d + 1) (by omega)]
        unfold nextDay
        rw [if_neg (show ¬ (⟨y, m, d⟩ : JSDate).day < daysInMonth y m by simpa using hlt)]
        by_cases h12 : m = 12
        · rw [if_pos h12, if_pos (show (⟨y, m, d⟩ : JSDate).month = 12 from h12)]
          have he : d + 1 - daysInMonth y m = 1 := by omega
          rw [he, setDateNorm_base (y + 1) 1 1 le_rfl
            (by have := daysInMonth_ge (y + 1) 1; omega)]
        · rw [if_neg h12, if_neg (show ¬ (⟨y, m, d⟩ : JSDate).month = 12 from h12)]
          have he : d + 1 - daysInMonth y m = 1 := by omega
          rw [he, setDateNorm_base y (m + 1) 1 le_rfl
            (by have := daysInMonth_ge y (m + 1); omega)]

theorem pad_eq (n : Int) (h1 : 1 ≤ n) (h2 : n ≤ 31) :
    padStart2 (toString n) = twoDigit n ∧ (twoDigit n).length = 2 := by
  interval_cases n <;> exact ⟨rfl, rfl⟩

theorem fmtYMD_eq (d : JSDate) :
    fmtYMD d = toString d.year ++ "/" ++ padStart2 (toString d.month) ++ "/"
      ++ padStart2 (toString d.day) := by
  unfold fmtYMD JSDate.getFullYear JSDate.getMonth JSDate.getDate
  have h : d.month - 1 + 1 = d.month := by ring
  rw [h]

/-! ## Claims C6, C7, C8: the date utilities -/

/-- Claim C6: for every genuine calendar date `d`, `formatDate(d)` returns
the string `YYYY/MM/DD` where the month and day are zero-padded to exactly
two digits. -/
theorem C6_formatDate_pads (d : JSDate) (h : ValidDate d) :
    formatDate (Cell.date d) =
      Cell.str (toString d.year ++ "/" ++ twoDigit d.month ++ "/" ++ twoDigit d.day) ∧
    (twoDigit d.month).length = 2 ∧ (twoDigit d.day).length = 2 := by
  obtain ⟨hm1, hm2, hd1, hd2⟩ := h
  have hdle : d.day ≤ 31 := le_trans hd2 (daysInMonth_le _ _)
  obtain ⟨pm, lm⟩ := pad_eq d.month hm1 (by omega)
  obtain ⟨pd, ld⟩ := pad_eq d.day hd1 hdle
  refine ⟨?_, lm, ld⟩
  show Cell.str (fmtYMD d) = _
  rw [fmtYMD_eq, pm, pd]

/-- Claim C6 witness: January 5th, 2024 formats to `2024/01/05`. -/
theorem C6_witness :
    formatDate (Cell.date ⟨2024, 1, 5⟩) = Cell.str "2024/01/05" := by
  have h := C6_formatDate_pads ⟨2024, 1, 5⟩ (by decide)
  rw [h.1]
  rfl

/-- Claim C7: for every input `v` that is not a date, `formatDate(v)`
returns `v` itself unchanged, including strings and blank values (an empty
cell reads back as the empty string). -/
theorem C7_formatDate_passthrough (v : Cell) (h : v.isDate = false) :
    formatDate v = v := by
  cases v <;> simp_all [Cell.isDate, formatDate]

/-- Claim C7 witness: a string and a blank cell pass through unchanged. -/
theorem C7_witness :
    formatDate (Cell.str "not a date") = Cell.str "not a date" ∧
    formatDate (Cell.str "") = Cell.str "" :=
  ⟨C7_formatDate_passthrough (Cell.str "not a date") rfl,
   C7_formatDate_passthrough (Cell.str "") rfl⟩

/-- Claim C8: for every valid date `d` and every `n ≥ 0`, `addDays(d, n)`
is the date exactly `n` calendar days after `d`, i.e. the `n`-fold
application of the one-day successor `nextDay` (which rolls over month and
year boundaries).  The source copies its argument (`new Date(date)`)
before calling `setDate`, and in this pure model values are immutable, so
the input date is unchanged by construction. -/
theorem C8_addDays_iterate (d : JSDate) (n : Nat) (h : ValidDate d) :
    addDays d (n : Int) = nextDay^[n] d := by
  obtain ⟨hm1, hm2, hd1, hd2⟩ := h
  induction n with
  | zero =>
    show setDateNorm d.year d.month (d.day + ((0 : Nat) : Int)) = d
    rw [show d.day + ((0 : Nat) : Int) = d.day by push_cast; ring]
    rw [setDateNorm_base d.year d.month d.day hd1 hd2]
  | succ n ih =>
    show setDateNorm d.year d.month (d.day + ((n + 1 : Nat) : Int)) = nextDay^[n + 1] d
    rw [show d.day + ((n + 1 : Nat) : Int) = (d.day + (n : Int)) + 1 by push_cast; ring]
    rw [setDateNorm_add_one_aux (d.day + (n : Int)).toNat d.year d.month
      (d.day + (n : Int)) le_rfl hm1 hm2 (by omega)]
    rw [show setDateNorm d.year d.month (d.day + (n : Int)) = nextDay^[n] d from ih]
    rw [Function.iterate_succ_apply']

/-- Claim C8 witness: the month rollover `2024/01/31 + 1 = 2024/02/01`
(obtained by instantiating `C8_addDays_iterate` at a concrete date). -/
theorem C8_witness :
    ValidDate ⟨2024, 1, 31⟩ ∧ addDays ⟨2024, 1, 31⟩ ((1 : Nat) : Int) = nextDay^[1] ⟨2024, 1, 31⟩ :=
  ⟨by decide, C8_addDays_iterate ⟨2024, 1, 31⟩ 1 (by decide)⟩

/-! ## Claims C1, C2: the due-date filter -/

theorem filter_map_eq_spec (t : String) : ∀ l : List Row,
    (l.filter (rowMatches t)).map (fun row => cellAt row 3) = specMatchingTitles t l := by
  intro l
  induction l with
  | nil => rfl
  | cons r rest ih =>
    simp only [specMatchingTitles]
    by_cases h : rowMatches t r
    · rw [List.filter_cons_of_pos h, List.map_cons, ih,
        if_pos (by simpa [rowMatches] using h)]
    · rw [List.filter_cons_of_neg (by simpa using h), ih,
        if_neg (by simpa [rowMatches] using h)]

/-- Claim C1: for every loan-records table and target date string,
`getBooksDueOnDate` skips the first (header) row and returns exactly the
titles (column 4) of the remaining rows whose due-date cell (column 7),
formatted by `formatDate`, is string-equal to the target, in original row
order, with duplicate titles preserved — i.e. its result is the in-order
collection `specMatchingTitles` written from §4.2 of the spec. -/
theorem C1_getBooksDueOnDate_spec (env : Env) (rows : List Row) (t : String)
    (h1 : env.dataSheet = some rows) (h2 : env.dataReadThrow = none) :
    getBooksDueOnDate env t = ([], .ok (specMatchingTitles t (rows.drop 1))) := by
  have e : getBooksDueOnDate env t = ([], .ok (dueBooksOf rows t)) := by
    unfold getBooksDueOnDate getBooksBody
    rw [h1, h2]
  rw [e,
    show dueBooksOf rows t = specMatchingTitles t (rows.drop 1) from
      filter_map_eq_spec t (rows.drop 1)]

/-- Claim C1 witness: on the concrete table the filter returns the two
duplicate "Book A" rows, in order. -/
theorem C1_witness :
    getBooksDueOnDate w1env "2025/01/02"
      = ([], .ok (specMatchingTitles "2025/01/02" (w1rows.drop 1))) ∧
    specMatchingTitles "2025/01/02" (w1rows.drop 1)
      = [Cell.str "Book A", Cell.str "Book A"] :=
  ⟨C1_getBooksDueOnDate_spec w1env w1rows "2025/01/02" rfl rfl, by decide⟩

/-- Claim C2 counterexample: a row whose due-date cell holds a non-date
value (the string `"2025/01/02"`) — `formatDate` passes it through, it
compares equal to the target, and the row's title IS included in the
returned list, contradicting "its title is never included ... regardless
of the cell's contents". -/
theorem C2_counterexample :
    (cellAt ((c2rows.drop 1).headD []) 6).isDate = false ∧
    getBooksDueOnDate c2env "2025/01/02" = ([], .ok [Cell.str "Book A"]) := by
  exact ⟨rfl, rfl⟩

/-- Claim C2 (amended): for every row whose due-date cell is a non-date
value, the comparison in `getBooksDueOnDate` never throws (the embedded
predicate is a total function), and the row matches the target exactly
when the cell is a string whose characters equal the target; in
particular a blank, number, or missing cell never matches, and a string
cell different from the target never matches. -/
theorem C2_amended (row : Row) (t : String)
    (h : (cellAt row 6).isDate = false) :
    rowMatches t row = true ↔ cellAt row 6 = Cell.str t := by
  cases hc : cellAt row 6 with
  | date d => rw [hc] at h; simp [Cell.isDate] at h
  | str s =>
    unfold rowMatches
    rw [hc]
    simp [formatDate, cellEqStr]
  | num n =>
    unfold rowMatches
    rw [hc]
    simp [formatDate, cellEqStr]
  | undefined =>
    unfold rowMatches
    rw [hc]
    simp [formatDate, cellEqStr]

/-- Claim C2 witness: a numeric due-date cell never matches. -/
theorem C2_witness :
    ¬ (rowMatches "2025/01/02"
        [Cell.undefined, Cell.undefined, Cell.undefined, Cell.str "Book A", Cell.undefined,
         Cell.undefined, Cell.num 42] = true) := by
  rw [C2_amended [Cell.undefined, Cell.undefined, Cell.undefined, Cell.str "Book A", Cell.undefined,
    Cell.undefined, Cell.num 42] "2025/01/02" rfl]
  decide

/-! ## Lemmas about the effect traces -/

theorem countPosts_append (a b : List Event) :
    countPosts (a ++ b) = countPosts a + countPosts b := by
  simp [countPosts, List.filter_append]

theorem logError_ok (env : Env) (m : String) (h : env.logThrow = none) :
    logError env m = ([Event.logged m], Except.ok ()) := by
  unfold logError
  rw [h]

theorem logError_posts (env : Env) (m : String) :
    countPosts (logError env m).1 = 0 := by
  unfold logError
  cases env.logThrow <;> rfl

theorem getConfig_posts (env : Env) : countPosts (getConfig env).1 = 0 := by
  unfold getConfig getConfigBody logError
  cases env.settingsSheet <;> cases env.settingsReadThrow <;> cases env.logThrow <;> rfl

theorem getBooks_posts (env : Env) (t : String) :
    countPosts (getBooksDueOnDate env t).1 = 0 := by
  unfold getBooksDueOnDate getBooksBody logError
  cases env.dataSheet <;> cases env.dataReadThrow <;> cases env.logThrow <;> rfl

theorem send_posts_le (env : Env) (c : Option Config) (m : String) :
    countPosts (sendMessageToLINE env c m).1 ≤ 1 := by
  unfold sendMessageToLINE sendBody logError
  cases c <;> cases env.fetchThrow <;> cases env.logThrow <;> split_ifs <;>
    simp [countPosts, Event.isPost]

theorem getConfig_ok (env : Env) (h : env.logThrow = none) :
    ∃ ev c, getConfig env = (ev, Except.ok c) := by
  unfold getConfig getConfigBody logError
  rw [h]
  cases env.settingsSheet <;> cases env.settingsReadThrow <;> exact ⟨_, _, rfl⟩

theorem getBooks_ok (env : Env) (t : String) (h : env.logThrow = none) :
    ∃ ev bs, getBooksDueOnDate env t = (ev, Except.ok bs) := by
  unfold getBooksDueOnDate getBooksBody logError
  rw [h]
  cases env.dataSheet <;> cases env.dataReadThrow <;> exact ⟨_, _, rfl⟩

theorem send_ok (env : Env) (c : Option Config) (m : String)
    (h : env.logThrow = none) :
    ∃ ev, sendMessageToLINE env c m = (ev, Except.ok ()) := by
  unfold sendMessageToLINE sendBody logError
  rw [h]
  cases c <;> cases env.fetchThrow <;> split_ifs <;> exact ⟨_, rfl⟩

/-! ## Claim C3: missing configuration aborts the run -/

/-- Claim C3: whenever the configuration is `null` or one of the three
required keys `URL` / `ACCESS_TOKEN` / `TO_USER_ID` is absent or empty
(and the error logger itself works), the orchestrator appends exactly the
configuration-error log entry after whatever `getConfig` logged, performs
no HTTP call, and stops normally — nothing runs after the log entry. -/
theorem C3_config_error_stops (env : Env) (ev1 : List Event) (config : Option Config)
    (hlog : env.logThrow = none)
    (hget : getConfig env = (ev1, Except.ok config))
    (hbad : config = none ∨ ∃ c, config = some c ∧ ∃ k,
      (k = "URL" ∨ k = "ACCESS_TOKEN" ∨ k = "TO_USER_ID") ∧
      (configGet c k = Cell.undefined ∨ configGet c k = Cell.str "")) :
    checkReturnDatesAndNotify env = (ev1 ++ [Event.logged cfgErrMsg], Except.ok ()) ∧
    countPosts (ev1 ++ [Event.logged cfgErrMsg]) = 0 := by
  have hvalid : cfgValid config = false := by
    rcases hbad with rfl | ⟨c, rfl, k, hk, hv⟩
    · rfl
    · rcases hk with rfl | rfl | rfl <;> rcases hv with hv | hv <;>
        simp [cfgValid, hv, Cell.truthy]
  have hp1 : countPosts ev1 = 0 := by
    have h := getConfig_posts env
    rw [hget] at h
    exact h
  refine ⟨?_, by rw [countPosts_append, hp1]; rfl⟩
  unfold checkReturnDatesAndNotify checkBody
  simp only [hget, hvalid, logError_ok env cfgErrMsg hlog]
  rfl

/-- Claim C3 witness: a settings sheet with `URL` only (no `ACCESS_TOKEN`)
leads to the configuration-error log entry and no HTTP call. -/
theorem C3_witness :
    checkReturnDatesAndNotify c3env
      = ([] ++ [Event.logged cfgErrMsg], Except.ok ()) ∧
    countPosts ([] ++ [Event.logged cfgErrMsg]) = 0 :=
  C3_config_error_stops c3env [] (some [("URL", Cell.str "https://api.example")])
    rfl rfl
    (Or.inr ⟨[("URL", Cell.str "https://api.example")], rfl, "ACCESS_TOKEN",
      Or.inr (Or.inl rfl), Or.inl rfl⟩)

/-! ## Claim C5: exception propagation -/

/-- Claim C5 counterexample: `logError` itself has no `try`/`catch`, so
when the error logger's sheet append throws (here with message `boom`)
while the settings sheet is missing, the exception escapes
`checkReturnDatesAndNotify` to its caller — the run does NOT convert every
internal failure into a logged entry plus a benign fallback. -/
theorem C5_counterexample :
    checkReturnDatesAndNotify c5env = ([], Except.error "boom") := rfl

/-- Claim C5 (amended): for every behavior of the spreadsheet store and
the messaging endpoint in which the error logger's own sheet operations
succeed, no exception escapes `checkReturnDatesAndNotify`: every internal
failure is caught and the invocation returns normally. -/
theorem C5_amended_no_escape (env : Env) (hlog : env.logThrow = none) :
    (checkReturnDatesAndNotify env).2 = Except.ok () := by
  obtain ⟨ev1, config, hget⟩ := getConfig_ok env hlog
  unfold checkReturnDatesAndNotify checkBody
  simp only [hget]
  by_cases hv : cfgValid config = true
  · obtain ⟨ev2, books, hbooks⟩ := getBooks_ok env (fmtYMD (addDays env.today 1)) hlog
    simp only [if_pos hv, hbooks]
    by_cases hb : 0 < books.length
    · obtain ⟨ev3, hsend⟩ := send_ok env config (buildMessage books) hlog
      simp only [if_pos hb, hsend]
    · simp only [if_neg hb]
  · simp only [if_neg hv, logError_ok env cfgErrMsg hlog]

/-- Claim C5 witness: with a working logger (and both sheets missing) the
run still returns normally. -/
theorem C5_witness : (checkReturnDatesAndNotify w5env).2 = Except.ok () :=
  C5_amended_no_escape w5env rfl

/-! ## Claim C9: the Notifier does not validate the inner keys -/

/-- Claim C9: for every truthy config object and non-empty message,
`sendMessageToLINE` attempts the HTTP POST without validating the inner
keys — the values `config.URL`, `config.ACCESS_TOKEN`, `config.TO_USER_ID`
are interpolated as-is (a missing key reads as `undefined`); only a falsy
config (`null`) or a falsy message (`""`) causes the call to be skipped
with an argument error logged instead. -/
theorem C9_send_attempts_without_validation :
    (∀ (env : Env) (c : Config) (msg : String), env.fetchThrow = none → msg ≠ "" →
      sendMessageToLINE env (some c) msg =
        ([Event.post (configGet c "URL") (configGet c "ACCESS_TOKEN")
            (configGet c "TO_USER_ID") msg], Except.ok ())) ∧
    (∀ (env : Env) (c : Option Config) (msg : String), env.logThrow = none →
      (c = none ∨ msg = "") →
      sendMessageToLINE env c msg =
        ([Event.logged "sendMessageToLINE関数に必要な引数が渡されていません。"],
         Except.ok ())) := by
  constructor
  · intro env c msg hf hm
    unfold sendMessageToLINE sendBody
    simp only [hf, if_neg hm]
  · intro env c msg hlog hskip
    rcases hskip with rfl | rfl
    · unfold sendMessageToLINE sendBody
      simp only [logError_ok env _ hlog]
    · cases c with
      | none =>
        unfold sendMessageToLINE sendBody
        simp only [logError_ok env _ hlog]
      | some c =>
        unfold sendMessageToLINE sendBody
        simp [logError_ok env _ hlog]

/-- Claim C9 witness: with an empty config object (every key missing) the
POST is still attempted, carrying `undefined` for all three values. -/
theorem C9_witness :
    sendMessageToLINE w5env (some []) "hello" =
      ([Event.post Cell.undefined Cell.undefined Cell.undefined "hello"], Except.ok ()) :=
  C9_send_attempts_without_validation.1 w5env [] "hello" rfl (by decide)

/-! ## Claim C10: at most one outbound POST per invocation -/

/-- Claim C10: every single invocation of `checkReturnDatesAndNotify`
performs at most one outbound HTTP POST, for every behavior of the
environment (escaping exceptions included: the trace records the posts
performed before the escape). -/
theorem C10_at_most_one_post (env : Env) :
    countPosts (checkReturnDatesAndNotify env).1 ≤ 1 := by
  unfold checkReturnDatesAndNotify checkBody
  rcases hget : getConfig env with ⟨ev1, r1⟩
  have hp1 : countPosts ev1 = 0 := by
    have h := getConfig_posts env
    rw [hget] at h
    exact h
  simp only [hget]
  cases r1 with
  | error e =>
    rcases hl : logError env ("checkReturnDatesAndNotify関数でエラー: " ++ e)
      with ⟨ev2, r2⟩
    have hp2 : countPosts ev2 = 0 := by
      have h := logError_posts env ("checkReturnDatesAndNotify関数でエラー: " ++ e)
      rw [hl] at h
      exact h
    simp only [hl, countPosts_append, hp1, hp2]
    omega
  | ok config =>
    by_cases hv : cfgValid config = true
    · rcases hb : getBooksDueOnDate env (fmtYMD (addDays env.today 1)) with ⟨ev2, r2⟩
      have hp2 : countPosts ev2 = 0 := by
        have h := getBooks_posts env (fmtYMD (addDays env.today 1))
        rw [hb] at h
        exact h
      simp only [if_pos hv, hb]
      cases r2 with
      | error e =>
        rcases hl : logError env ("checkReturnDatesAndNotify関数でエラー: " ++ e)
          with ⟨ev3, r3⟩
        have hp3 : countPosts ev3 = 0 := by
          have h := logError_posts env ("checkReturnDatesAndNotify関数でエラー: " ++ e)
          rw [hl] at h
          exact h
        simp only [hl, countPosts_append, hp1, hp2, hp3]
        omega
      | ok books =>
        by_cases hlen : 0 < books.length
        · rcases hs : sendMessageToLINE env config (buildMessage books) with ⟨ev3, r3⟩
          have hp3 : countPosts ev3 ≤ 1 := by
            have h := send_posts_le env config (buildMessage books)
            rw [hs] at h
            exact h
          simp only [if_pos hlen, hs]
          cases r3 with
          | ok _ =>
            simp only [countPosts_append, hp1, hp2]
            omega
          | error e =>
            rcases hl : logError env ("checkReturnDatesAndNotify関数でエラー: " ++ e)
              with ⟨ev4, r4⟩
            have hp4 : countPosts ev4 = 0 := by
              have h := logError_posts env ("checkReturnDatesAndNotify関数でエラー: " ++ e)
              rw [hl] at h
              exact h
            simp only [hl, countPosts_append, hp1, hp2, hp4]
            omega
        · simp only [if_neg hlen, countPosts_append, hp1, hp2]
          omega
    · rcases hl : logError env cfgErrMsg with ⟨ev2, r2⟩
      have hp2 : countPosts ev2 = 0 := by
        have h := logError_posts env cfgErrMsg
        rw [hl] at h
        exact h
      simp only [if_neg hv, hl]
      cases r2 with
      | ok _ =>
        simp only [countPosts_append, hp1, hp2]
        omega
      | error e =>
        rcases hl2 : logError env ("checkReturnDatesAndNotify関数でエラー: " ++ e)
          with ⟨ev3, r3⟩
        have hp3 : countPosts ev3 = 0 := by
          have h := logError_posts env ("checkReturnDatesAndNotify関数でエラー: " ++ e)
          rw [hl2] at h
          exact h
        simp only [hl2, countPosts_append, hp1, hp2, hp3]
        omega

/-! ## Claim C4: the notification message -/

theorem inter_go (s : String) : ∀ (l : List String) (acc b : String),
    String.intercalate.go (acc ++ b) s l = acc ++ String.intercalate.go b s l := by
  intro l
  induction l with
  | nil => intro acc b; rfl
  | cons a as ih =>
    intro acc b
    show String.intercalate.go (acc ++ b ++ s ++ a) s as = _
    rw [String.append_assoc, String.append_assoc, ← String.append_assoc b s a, ih]
    rfl

theorem inter_cons_cons (s a b : String) (l : List String) :
    String.intercalate s (a :: b :: l) = a ++ s ++ String.intercalate s (b :: l) := by
  show String.intercalate.go (a ++ s ++ b) s l = _
  rw [inter_go s l (a ++ s) b]
  rfl

theorem inter_single (s a : String) : String.intercalate s [a] = a := rfl

theorem map_joinElem : ∀ titles : List String,
    (titles.map Cell.str).map joinElem = titles := by
  intro titles
  induction titles with
  | nil => rfl
  | cons t l ih => simp [joinElem, Cell.jsString, ih]

theorem inter_tail (u : String) : ∀ (l : List String) (t : String),
    String.intercalate "\n" (t :: l) ++ "\n\n" ++ u
      = String.intercalate "\n" (t :: (l ++ ["", u])) := by
  intro l
  induction l with
  | nil =>
    intro t
    rw [show (([] : List String) ++ ["", u]) = ["", u] from rfl]
    rw [inter_single, inter_cons_cons, inter_cons_cons, inter_single]
    simp only [String.append_assoc, String.empty_append]
    congr 1
  | cons a l ih =>
    intro t
    rw [inter_cons_cons]
    rw [show ((a :: l) ++ ["", u]) = a :: (l ++ ["", u]) from rfl]
    rw [inter_cons_cons, ← ih a]
    simp [String.append_assoc]

/-- Claim C4: for every non-empty list of due titles the notification
message of line 22 is, joined by single newlines and in this exact order:
the fixed header line, each title on its own line in list order, a blank
line, and the fixed informational URL line; and when the due list is
empty, no message is built and no notification is sent (the run performs
no HTTP POST at all). -/
theorem C4_message_structure :
    (∀ titles : List String, titles ≠ [] →
      buildMessage (titles.map Cell.str)
        = String.intercalate "\n" (headerLine :: (titles ++ ["", urlLine]))) ∧
    (∀ (env : Env) (rows : List Row), env.dataSheet = some rows →
      env.dataReadThrow = none →
      dueBooksOf rows (fmtYMD (addDays env.today 1)) = [] →
      countPosts (checkReturnDatesAndNotify env).1 = 0) := by
  constructor
  · intro titles hne
    cases titles with
    | nil => exact absurd rfl hne
    | cons t l =>
      unfold buildMessage
      rw [map_joinElem]
      rw [show ((t :: l) ++ ["", urlLine]) = t :: (l ++ ["", urlLine]) from rfl]
      rw [inter_cons_cons, ← inter_tail urlLine l t]
      simp [String.append_assoc]
  · intro env rows h1 h2 hempty
    have hbooks : getBooksDueOnDate env (fmtYMD (addDays env.today 1))
        = ([], Except.ok []) := by
      have e : getBooksDueOnDate env (fmtYMD (addDays env.today 1))
          = ([], .ok (dueBooksOf rows (fmtYMD (addDays env.today 1)))) := by
        unfold getBooksDueOnDate getBooksBody
        rw [h1, h2]
      rw [e, hempty]
    unfold checkReturnDatesAndNotify checkBody
    rcases hget : getConfig env with ⟨ev1, r1⟩
    have hp1 : countPosts ev1 = 0 := by
      have h := getConfig_posts env
      rw [hget] at h
      exact h
    simp only [hget]
    cases r1 with
    | error e =>
      rcases hl : logError env ("checkReturnDatesAndNotify関数でエラー: " ++ e)
        with ⟨ev2, r2⟩
      have hp2 : countPosts ev2 = 0 := by
        have h := logError_posts env ("checkReturnDatesAndNotify関数でエラー: " ++ e)
        rw [hl] at h
        exact h
      simp only [hl, countPosts_append, hp1, hp2]
    | ok config =>
      by_cases hv : cfgValid config = true
      · simp only [if_pos hv, hbooks]
        rw [if_neg (show ¬ (0 < List.length ([] : List Cell)) by simp)]
        simp only [List.append_nil, hp1]
      · rcases hl : logError env cfgErrMsg with ⟨ev2, r2⟩
        have hp2 : countPosts ev2 = 0 := by
          have h := logError_posts env cfgErrMsg
          rw [hl] at h
          exact h
        simp only [if_neg hv, hl]
        cases r2 with
        | ok _ => simp only [countPosts_append, hp1, hp2]
        | error e =>
          rcases hl2 : logError env ("checkReturnDatesAndNotify関数でエラー: " ++ e)
            with ⟨ev3, r3⟩
          have hp3 : countPosts ev3 = 0 := by
            have h := logError_posts env ("checkReturnDatesAndNotify関数でエラー: " ++ e)
            rw [hl2] at h
            exact h
          simp only [hl2, countPosts_append, hp1, hp2, hp3]

/-- Claim C4 witness: two titles produce header, the two title lines, a
blank line and the URL line in order; a header-only table sends nothing. -/
theorem C4_witness :
    buildMessage (["Book A", "Book B"].map Cell.str)
      = String.intercalate "\n" (headerLine :: (["Book A", "Book B"] ++ ["", urlLine])) ∧
    countPosts (checkReturnDatesAndNotify w4env).1 = 0 :=
  ⟨C4_message_structure.1 ["Book A", "Book B"] (by decide),
   C4_message_structure.2 w4env [[Cell.str "Title"]] rfl rfl rfl⟩
